import Mathlib

/-!
Verification development for the Smart Medical Lab-Report Analyser backend.

The definitions below are shallow embeddings of the JavaScript source:
  * `determineRiskLevel`, `uploadReport` — Backend extraction controller
  * `processComplete`, `generateSummary`, `generateRecommendations` — agent service
  * `sendMessage`, `startChat`, `buildInitialMessages` — chatbot controllers
  * `validateMessage`, `chatRateLimit` — chatbot middleware
  * `groupFilesByPatient` helpers — vault controller
External effects (database writes, subprocess calls, the AI model) are
modelled by explicit parameters carrying their outcomes.
-/

set_option autoImplicit false

namespace MedLab

/-! Executable counterparts of the JavaScript string operations used by the
source (`trim`, `toLowerCase`, `split` on a literal, `split` on a character
class). They are written by structural recursion on the character list so
that concrete instances evaluate inside the kernel. -/

/-- JavaScript `String.prototype.trim`: drop leading and trailing
whitespace. -/
def jsTrim (s : String) : String :=
  ⟨(((s.data.dropWhile Char.isWhitespace).reverse).dropWhile
      Char.isWhitespace).reverse⟩

/-- JavaScript `String.prototype.toLowerCase` on ASCII letters. -/
def jsToLower (s : String) : String :=
  ⟨s.data.map Char.toLower⟩

/-- Split off the part before the first occurrence of `pat` and the part
after it, or `none` when `pat` does not occur. -/
def splitFirst (pat : List Char) : List Char → Option (List Char × List Char)
  | [] => none
  | c :: rest =>
      if pat.isPrefixOf (c :: rest) then some ([], (c :: rest).drop pat.length)
      else
        match splitFirst pat rest with
        | none => none
        | some (pre, post) => some (c :: pre, post)

/-- Fuelled iteration of `splitFirst`, splitting on every occurrence. -/
def splitLoop (pat : List Char) : Nat → List Char → List (List Char)
  | 0, l => [l]
  | fuel + 1, l =>
      match splitFirst pat l with
      | none => [l]
      | some (pre, post) => pre :: splitLoop pat fuel post

/-- JavaScript `String.prototype.split` on a non-empty literal separator. -/
def jsSplit (s pat : String) : List String :=
  (splitLoop pat.data (s.data.length + 1) s.data).map String.mk

/-- Split a character list on every character satisfying `p`. -/
def splitByPred (p : Char → Bool) : List Char → List (List Char)
  | [] => [[]]
  | c :: rest =>
      let r := splitByPred p rest
      if p c then [] :: r
      else
        match r with
        | [] => [[c]]
        | h :: t => (c :: h) :: t

/-- JavaScript `String.prototype.split` on a single-character class, as in
the regular expression split of `_normalizeRecommendations`. -/
def jsSplitPred (s : String) (p : Char → Bool) : List String :=
  (splitByPred p s.data).map String.mk

/-- One entry of `extractedData.tests` as consumed by `determineRiskLevel`:
only the truthiness of `test.flag` and the `test.status` string matter. -/
structure TestEntry where
  flag : Bool
  status : String
  deriving Repr, DecidableEq

/-- The abnormality test from `determineRiskLevel`:
`test.flag || test.status === 'High' || test.status === 'Low'`. -/
def isOutOfRange (t : TestEntry) : Bool :=
  t.flag || t.status == "High" || t.status == "Low"

/-- `extractedData` as consumed by the extraction controller: the `tests`
field is absent (`none`) when `extractedData.tests` is missing or not an
array, mirroring the `extractedData.tests && Array.isArray(...)` guard. -/
structure ExtractedData where
  tests : Option (List TestEntry)
  reportType : Option String
  deriving Repr, DecidableEq

/-- Shallow embedding of `determineRiskLevel` from the extraction controller.
The JavaScript percentage `(outOfRangeCount / totalTests) * 100` is modelled
with exact rational arithmetic. -/
def determineRiskLevel (extractedData : ExtractedData) : String :=
  let totalTests : Nat :=
    match extractedData.tests with
    | some ts => ts.length
    | none => 0
  let outOfRangeCount : Nat :=
    match extractedData.tests with
    | some ts => (ts.filter isOutOfRange).length
    | none => 0
  if totalTests = 0 then "Unknown"
  else
    let percentage : ℚ := ((outOfRangeCount : ℚ) / (totalTests : ℚ)) * 100
    if percentage > 30 then "High"
    else if percentage > 15 then "Medium"
    else "Normal"

/-- The abnormal-entry fraction of a list of test entries (the spec's
"count of abnormal entries over total entries"). -/
def abnormalFraction (ts : List TestEntry) : ℚ :=
  ((ts.filter isOutOfRange).length : ℚ) / (ts.length : ℚ)

/-- Result shape returned by `extractData` in the agent service. -/
structure ExtractionResult where
  data : ExtractedData
  jsonPath : String
  patientInfoName : Option String
  testCount : Nat
  deriving Repr, DecidableEq

/-- Result shape returned by `generateSummary` / `generateRecommendations`:
the narrative text read from the output file, plus that file's path. -/
structure NarrativeResult where
  text : String
  filePath : String
  deriving Repr, DecidableEq

/-- Result shape returned by `processWithVaultAgent`. -/
structure VaultResult where
  patient_name : Option String
  vault_dir : String
  is_new_patient : Bool
  total_reports : Option Nat
  deriving Repr, DecidableEq

/-- Outcomes of the four external stage calls made by `processComplete`;
each field carries the value the corresponding `await` would produce, or
the error it would reject with. -/
structure StageOutcomes where
  extraction : Except String ExtractionResult
  summary : Except String NarrativeResult
  recommendations : Except String NarrativeResult
  vault : Except String VaultResult
  deriving Repr

/-- Boolean error test for `Except`. -/
def isErrorE {ε α : Type} (x : Except ε α) : Bool :=
  match x with
  | .error _ => true
  | .ok _ => false

/-- Aggregated value returned by a successful `processComplete` run. -/
structure PipelineResult where
  patientName : Option String
  vaultPath : String
  extractedData : ExtractedData
  jsonPath : String
  testCount : Nat
  summary : String
  recommendations : String
  isNewPatient : Bool
  totalReports : Nat
  deriving Repr, DecidableEq

/-- Shallow embedding of `agentService.processComplete`: extraction first,
then both narrative generations (`Promise.all` — both must succeed), then
the vault agent; any rejection aborts the run with that error. -/
def processComplete (st : StageOutcomes) : Except String PipelineResult := do
  let extractionResult ← st.extraction
  let summaryResult ← st.summary
  let recommendationResult ← st.recommendations
  let vaultResult ← st.vault
  pure
    { patientName := vaultResult.patient_name <|> extractionResult.patientInfoName
      vaultPath := vaultResult.vault_dir
      extractedData := extractionResult.data
      jsonPath := extractionResult.jsonPath
      testCount := extractionResult.testCount
      summary := summaryResult.text
      recommendations := recommendationResult.text
      isNewPatient := vaultResult.is_new_patient
      totalReports := vaultResult.total_reports.getD 1 }

/-- A persisted Report document, as created by `Report.create` in
`uploadReport`. -/
structure Report where
  patientName : Option String
  reportType : String
  extractedData : ExtractedData
  summary : String
  recommendations : String
  riskLevel : String
  deriving Repr, DecidableEq

/-- HTTP-level outcome of the upload route, reduced to status code and
success flag. -/
structure UploadResponse where
  status : Nat
  success : Bool
  deriving Repr, DecidableEq

/-- Shallow embedding of `uploadReport` from the extraction controller:
runs `processComplete`; on success derives the risk level, creates the
Report and answers 201; on any pipeline error answers 500 and persists
nothing. The first component is the Report persisted by the run (`none`
when no Report is created). -/
def uploadReport (hasFile : Bool) (st : StageOutcomes) :
    Option Report × UploadResponse :=
  if ¬ hasFile then (none, ⟨400, false⟩)
  else
    match processComplete st with
    | .error _ => (none, ⟨500, false⟩)
    | .ok result =>
        let riskLevel := determineRiskLevel result.extractedData
        let report : Report :=
          { patientName := result.patientName
            reportType := result.extractedData.reportType.getD "Blood Test"
            extractedData := result.extractedData
            summary := result.summary
            recommendations := result.recommendations
            riskLevel := riskLevel }
        (some report, ⟨201, true⟩)

/-- JavaScript `String.prototype.includes` for a non-empty pattern,
expressed through `jsSplit`. -/
def jsIncludes (s pat : String) : Bool :=
  (jsSplit s pat).length > 1

/-- Shallow embedding of `agentService.generateSummary`, parameterised by
the subprocess stdout and by the file system (`fsys p` is the content of
file `p`, `none` when the file does not exist). The surrounding
try/catch rethrows every failure with a `Summary generation failed:`
prefix. The returned text is the raw file content: no emptiness check is
performed on it. -/
def generateSummary (output : String) (fsys : String → Option String) :
    Except String NarrativeResult :=
  if jsIncludes output "ERROR:" then
    .error ("Summary generation failed: " ++
      jsTrim ((jsSplit output "ERROR:").getD 1 ""))
  else if ¬ jsIncludes output "OUTPUT_FILE:" then
    .error "Summary generation failed: No output file path returned from Summary agent"
  else
    let outputFilePath :=
      (jsSplit (jsTrim ((jsSplit output "OUTPUT_FILE:").getD 1 "")) "\n").getD 0 ""
    match fsys outputFilePath with
    | none =>
        .error ("Summary generation failed: Summary file not found at: " ++ outputFilePath)
    | some content => .ok { text := content, filePath := outputFilePath }

/-- Shallow embedding of `agentService.generateRecommendations`; identical
parsing with the Recommendation wording, plus the extra falsy-path check
`!outputFilePath`. As with the summary, the file content is returned
without any emptiness check. -/
def generateRecommendations (output : String) (fsys : String → Option String) :
    Except String NarrativeResult :=
  if jsIncludes output "ERROR:" then
    .error ("Recommendation generation failed: " ++
      jsTrim ((jsSplit output "ERROR:").getD 1 ""))
  else if ¬ jsIncludes output "OUTPUT_FILE:" then
    .error "Recommendation generation failed: No output file path returned from Recommendation agent"
  else
    let outputFilePath :=
      (jsSplit (jsTrim ((jsSplit output "OUTPUT_FILE:").getD 1 "")) "\n").getD 0 ""
    if outputFilePath = "" then
      .error ("Recommendation generation failed: Recommendation file not found: " ++ outputFilePath)
    else
      match fsys outputFilePath with
      | none =>
          .error ("Recommendation generation failed: Recommendation file not found: " ++ outputFilePath)
      | some content => .ok { text := content, filePath := outputFilePath }

/-- Stage-invocation events of one `processComplete` run. -/
inductive StageEv where
  | extract
  | summary
  | recs
  | vault
  deriving Repr, DecidableEq

/-- Event trace of `processComplete`: extraction always runs first; when it
succeeds, both narrative agents are started by `Promise.all` (the Boolean
`summaryFirst` picks an arbitrary completion order for the two concurrent
calls); the vault agent is invoked only after both narratives succeed. -/
def processTrace (st : StageOutcomes) (summaryFirst : Bool) : List StageEv :=
  match st.extraction with
  | .error _ => [.extract]
  | .ok _ =>
      let narr : List StageEv :=
        if summaryFirst then [.summary, .recs] else [.recs, .summary]
      if isErrorE st.summary || isErrorE st.recommendations then
        .extract :: narr
      else
        .extract :: narr ++ [.vault]

/-- Message roles stored in a chat session's history. -/
inductive Role where
  | user
  | assistant
  deriving Repr, DecidableEq

/-- One entry of `chatSession.chatHistory`. -/
structure ChatMessage where
  role : Role
  message : String
  timestamp : Nat
  deriving Repr, DecidableEq

/-- The truncation step of `sendMessage`: `if (chatHistory.length > 20)
chatHistory = chatHistory.slice(-20)` — keep the most recent 20 entries. -/
def truncateHistory (h : List ChatMessage) : List ChatMessage :=
  if h.length > 20 then h.drop (h.length - 20) else h

/-- The response of the send-message route, reduced to its HTTP shape. -/
inductive SendOutcome where
  | badRequest (msg : String)
  | notFound (msg : String)
  | tooMany (msg : String)
  | serverError (msg : String)
  | ok (botResponse : String)
  deriving Repr, DecidableEq

/-- Stored history after the request together with the response sent. -/
structure SendResult where
  persisted : List ChatMessage
  response : SendOutcome
  deriving Repr, DecidableEq

/-- Shallow embedding of the chatbot controller's `sendMessage`, given the
persisted history of the found session, the report's test list, and the
outcome of the Python chatbot call. The in-memory pushes become visible in
the store only at `chatSession.save()`, which runs after a successful bot
call; when the bot call rejects, the catch block answers 500 and `save` is
never reached, so the persisted history is the unchanged input. -/
def sendMessage (history : List ChatMessage) (tests : List TestEntry)
    (message : String) (botResult : Except String String) (now : Nat) :
    SendResult :=
  if jsTrim message = "" then ⟨history, .badRequest "Message cannot be empty"⟩
  else if tests.isEmpty then
    ⟨history, .badRequest "Report does not contain valid lab test data. Please process the report first."⟩
  else
    let afterUser := history ++ [⟨.user, jsTrim message, now⟩]
    match botResult with
    | .error _ => ⟨history, .serverError "Failed to process message"⟩
    | .ok botResponse =>
        let afterBot := afterUser ++ [⟨.assistant, botResponse, now⟩]
        ⟨truncateHistory afterBot, .ok botResponse⟩

/-- The string branch of `_normalizeRecommendations`: split on newline,
bullet or dash, trim each piece, keep the non-empty ones (the array branch
is not reachable from the pipeline, whose recommendations are text). -/
def normalizeRecommendations (value : String) : List String :=
  if value = "" then []
  else
    ((jsSplitPred value (fun c => c == '\n' || c == '•' || c == '-')).map
      jsTrim).filter (fun s => s ≠ "")

/-- Shallow embedding of `_buildInitialMessages`: an assistant turn quoting
the summary when it is non-empty, then an assistant turn listing the
normalised recommendations when there are any. -/
def buildInitialMessages (report : Report) (now : Nat) : List ChatMessage :=
  (if report.summary ≠ "" then
    [⟨.assistant, "Here is the report summary:\n" ++ report.summary, now⟩]
  else []) ++
  (let recs := normalizeRecommendations report.recommendations
   if recs ≠ [] then
    [⟨.assistant, "Recommended next steps:\n• " ++ String.intercalate "\n• " recs, now⟩]
   else [])

/-- A persisted chat-session document. -/
structure StoredSession where
  userID : String
  relatedReportID : String
  chatHistory : List ChatMessage
  deriving Repr, DecidableEq

/-- `ChatBot.findOne({userID, relatedReportID})` over a session store. -/
def findSession (store : List StoredSession) (uid rid : String) :
    Option StoredSession :=
  store.find? (fun s => s.userID == uid && s.relatedReportID == rid)

/-- Shallow embedding of `startChat` (seeding variant): return the existing
session for this (user, report) pair unchanged, or create one seeded by
`_buildInitialMessages` and save it. Returns the updated store and the
session handed to the client. -/
def startChat (store : List StoredSession) (uid rid : String)
    (report : Report) (now : Nat) : List StoredSession × StoredSession :=
  match findSession store uid rid with
  | some s => (store, s)
  | none =>
      let s : StoredSession := ⟨uid, rid, buildInitialMessages report now⟩
      (store ++ [s], s)

/-- Outcome of the `chatRateLimit` middleware. -/
inductive RateOutcome where
  | notFound
  | rejected
  | proceed
  deriving Repr, DecidableEq

/-- Shallow embedding of the `chatRateLimit` middleware: any thrown error
in the check falls into the catch block, which calls `next()` (the check
is best-effort); otherwise a missing session answers 404, and a last
history entry younger than 2000 ms answers 429. -/
def chatRateLimit (checkThrows : Bool) (sessionFound : Bool)
    (history : List ChatMessage) (now : Nat) : RateOutcome :=
  if checkThrows then .proceed
  else if ¬ sessionFound then .notFound
  else
    match history.getLast? with
    | none => .proceed
    | some last =>
        if (now : Int) - (last.timestamp : Int) < 2000 then .rejected
        else .proceed

/-- Shallow embedding of the `validateMessage` middleware. A message is a
string here, so the `typeof` branch collapses into the falsy check on the
empty string. -/
def validateMessage (message : String) (hasChatId : Bool) :
    Option SendOutcome :=
  if message = "" then some (.badRequest "Message is required and must be a string")
  else if jsTrim message = "" then some (.badRequest "Message cannot be empty")
  else if message.length > 1000 then
    some (.badRequest "Message too long (max 1000 characters)")
  else if ¬ hasChatId then some (.badRequest "Chat ID is required")
  else none

/-- The `POST /api/chat/message` route: `validateMessage`, then
`chatRateLimit`, then the `sendMessage` controller (which re-checks that
the session exists). -/
def messageRoute (message : String) (hasChatId checkThrows sessionFound : Bool)
    (history : List ChatMessage) (tests : List TestEntry)
    (botResult : Except String String) (now : Nat) : SendResult :=
  match validateMessage message hasChatId with
  | some err => ⟨history, err⟩
  | none =>
      match chatRateLimit checkThrows sessionFound history now with
      | .notFound => ⟨history, .notFound "Chat session not found"⟩
      | .rejected => ⟨history, .tooMany "Please wait before sending another message"⟩
      | .proceed =>
          if ¬ sessionFound then ⟨history, .notFound "Chat session not found"⟩
          else sendMessage history tests message botResult now

/-- Is the response a 400 validation rejection? -/
def SendOutcome.isBadRequest : SendOutcome → Bool
  | .badRequest _ => true
  | _ => false

/-- One entry of `vault.files` as consumed by `groupFilesByPatient`; only
the owner name matters for bucketing; `id` keeps entries distinguishable. -/
structure VaultFile where
  patientName : Option String
  id : Nat
  deriving Repr, DecidableEq

/-- The display-name fallback `file.patientName || 'Unlabeled Patient'`
(both a missing and an empty name are falsy). -/
def displayName (patientName : Option String) : String :=
  match patientName with
  | none => "Unlabeled Patient"
  | some s => if s = "" then "Unlabeled Patient" else s

/-- The bucket key `patientName.toLowerCase().trim() || 'unlabeled'` from
`groupFilesByPatient` (ASCII lower-casing, as `Char.toLower`). -/
def groupKey (patientName : Option String) : String :=
  let key := jsTrim (jsToLower (displayName patientName))
  if key = "" then "unlabeled" else key

/-- One bucket of the grouping map built by `groupFilesByPatient`. -/
structure PatientGroup where
  key : String
  patientName : String
  files : List VaultFile
  deriving Repr, DecidableEq

/-- Insert one file into the insertion-ordered bucket list, as
`map.get(key) || {patientName, files: []}` followed by push and set. -/
def addFileToGroups (groups : List PatientGroup) (f : VaultFile) :
    List PatientGroup :=
  match groups with
  | [] => [⟨groupKey f.patientName, displayName f.patientName, [f]⟩]
  | g :: rest =>
      if g.key = groupKey f.patientName then
        ⟨g.key, g.patientName, g.files ++ [f]⟩ :: rest
      else g :: addFileToGroups rest f

/-- The map-building phase of `groupFilesByPatient`: bucket the files by
`groupKey`, preserving first-seen bucket order (the later per-bucket
summary projection of the source is not needed by any claim). -/
def groupFilesByPatient (files : List VaultFile) : List PatientGroup :=
  files.foldl addFileToGroups []


/-- Decidable equality for stage outcomes. -/
instance {ε α : Type} [DecidableEq ε] [DecidableEq α] : DecidableEq (Except ε α) := fun x y =>
  match x, y with
  | .error a, .error b =>
      if h : a = b then .isTrue (by rw [h]) else .isFalse (by simp [h])
  | .error _, .ok _ => .isFalse (by simp)
  | .ok _, .error _ => .isFalse (by simp)
  | .ok a, .ok b =>
      if h : a = b then .isTrue (by rw [h]) else .isFalse (by simp [h])

/-- Normal form of `determineRiskLevel` on a non-empty test list, with the
percentage comparison rewritten as a comparison of the abnormal fraction. -/
lemma determineRiskLevel_some_eq (ts : List TestEntry) (rt : Option String)
    (h : ts ≠ []) :
    determineRiskLevel ⟨some ts, rt⟩ =
      if 30 / 100 < abnormalFraction ts then "High"
      else if 15 / 100 < abnormalFraction ts then "Medium"
      else "Normal" := by
  have hlen : ts.length ≠ 0 := fun hl => h (List.length_eq_zero.mp hl)
  unfold determineRiskLevel abnormalFraction
  simp only [hlen, if_false]
  apply if_congr ?_ rfl (if_congr ?_ rfl rfl)
  · rw [gt_iff_lt, div_lt_iff₀ (by norm_num : (0:ℚ) < 100)]
  · rw [gt_iff_lt, div_lt_iff₀ (by norm_num : (0:ℚ) < 100)]

/-- C1. For every StructuredRecord with at least one test entry, the risk
level assigned to the persisted Report is High exactly when the abnormal
fraction exceeds 30%, Medium exactly when it exceeds 15% but not 30%, and
Normal otherwise; with zero test entries (or a missing test array) the
risk level is Unknown; and every persisted Report carries the risk level
derived by `determineRiskLevel` from its own extracted data. -/
theorem riskLevel_matches_thresholds (ts : List TestEntry) (rt : Option String)
    (h : ts ≠ []) :
    ((determineRiskLevel ⟨some ts, rt⟩ = "High" ↔ 30 / 100 < abnormalFraction ts) ∧
     (determineRiskLevel ⟨some ts, rt⟩ = "Medium" ↔
       (15 / 100 < abnormalFraction ts ∧ abnormalFraction ts ≤ 30 / 100)) ∧
     (determineRiskLevel ⟨some ts, rt⟩ = "Normal" ↔ abnormalFraction ts ≤ 15 / 100)) ∧
    determineRiskLevel ⟨none, rt⟩ = "Unknown" ∧
    determineRiskLevel ⟨some [], rt⟩ = "Unknown" ∧
    (∀ (st : StageOutcomes) (r : Report) (u : UploadResponse),
      uploadReport true st = (some r, u) → r.riskLevel = determineRiskLevel r.extractedData) := by
  have hup : ∀ (st : StageOutcomes) (r : Report) (u : UploadResponse),
      uploadReport true st = (some r, u) → r.riskLevel = determineRiskLevel r.extractedData := by
    intro st r u hru
    unfold uploadReport at hru
    cases hpc : processComplete st with
    | error e => rw [hpc] at hru; simp at hru
    | ok result =>
        rw [hpc] at hru
        simp at hru
        obtain ⟨hr, -⟩ := hru
        subst hr
        rfl
  rw [determineRiskLevel_some_eq ts rt h]
  refine ⟨?_, rfl, rfl, hup⟩
  by_cases h30 : 30 / 100 < abnormalFraction ts
  · have h15 : 15 / 100 < abnormalFraction ts := lt_trans (by norm_num) h30
    rw [if_pos h30]
    refine ⟨by simp [h30], ?_, ?_⟩
    · constructor
      · intro hs; exact absurd hs (by decide)
      · rintro ⟨-, hle⟩; exact absurd h30 (not_lt.mpr hle)
    · constructor
      · intro hs; exact absurd hs (by decide)
      · intro hle; exact absurd hle (not_le.mpr h15)
  · rw [if_neg h30]
    have hle30 : abnormalFraction ts ≤ 30 / 100 := not_lt.mp h30
    by_cases h15 : 15 / 100 < abnormalFraction ts
    · rw [if_pos h15]
      refine ⟨?_, by simp [h15, hle30], ?_⟩
      · constructor
        · intro hs; exact absurd hs (by decide)
        · intro hf; exact absurd hf h30
      · constructor
        · intro hs; exact absurd hs (by decide)
        · intro hle; exact absurd hle (not_le.mpr h15)
    · rw [if_neg h15]
      have hle15 : abnormalFraction ts ≤ 15 / 100 := not_lt.mp h15
      refine ⟨?_, ?_, by simp [hle15]⟩
      · constructor
        · intro hs; exact absurd hs (by decide)
        · intro hf; exact absurd hf h30
      · constructor
        · intro hs; exact absurd hs (by decide)
        · rintro ⟨hf, -⟩; exact absurd hf h15

/-- Witness for C1: a single abnormal entry gives fraction 100% > 30%, so
the derived risk level is High. -/
theorem riskLevel_matches_thresholds_witness :
    ([⟨true, "High"⟩] : List TestEntry) ≠ [] ∧
    determineRiskLevel ⟨some [⟨true, "High"⟩], none⟩ = "High" := by
  refine ⟨by decide, ?_⟩
  exact ((riskLevel_matches_thresholds [⟨true, "High"⟩] none (by decide)).1.1).mpr
    (by norm_num [abnormalFraction, List.filter, isOutOfRange])


/-- C2. If either narrative generation fails, `processComplete` rejects and
`uploadReport` persists no Report; conversely a persisted Report requires
both narrative stages to have succeeded. -/
theorem narratives_all_or_nothing (st : StageOutcomes)
    (h : isErrorE st.summary = true ∨ isErrorE st.recommendations = true) :
    (uploadReport true st).1 = none ∧
    isErrorE (processComplete st) = true ∧
    (∀ (st2 : StageOutcomes) (hasFile : Bool) (r : Report) (u : UploadResponse),
      uploadReport hasFile st2 = (some r, u) →
      isErrorE st2.summary = false ∧ isErrorE st2.recommendations = false) := by
  have hconv : ∀ (st2 : StageOutcomes) (hasFile : Bool) (r : Report) (u : UploadResponse),
      uploadReport hasFile st2 = (some r, u) →
      isErrorE st2.summary = false ∧ isErrorE st2.recommendations = false := by
    intro st2 hasFile r u hru
    obtain ⟨ext, sum, rec, vau⟩ := st2
    cases hasFile with
    | false => simp [uploadReport] at hru
    | true =>
        cases ext with
        | error e =>
            simp [uploadReport, processComplete, Except.instMonad, Except.bind] at hru
        | ok a =>
            cases sum with
            | error e =>
                simp [uploadReport, processComplete, Except.instMonad, Except.bind] at hru
            | ok b =>
                cases rec with
                | error e =>
                    simp [uploadReport, processComplete, Except.instMonad, Except.bind] at hru
                | ok c => exact ⟨rfl, rfl⟩
  have hfail : isErrorE (processComplete st) = true := by
    obtain ⟨ext, sum, rec, vau⟩ := st
    simp only [isErrorE] at h
    cases ext with
    | error e => rfl
    | ok a =>
        cases sum with
        | error e => rfl
        | ok b =>
            cases rec with
            | error e => rfl
            | ok c => simp at h
  refine ⟨?_, hfail, hconv⟩
  unfold uploadReport
  cases hpc : processComplete st with
  | error e => simp
  | ok result => rw [hpc] at hfail; simp [isErrorE] at hfail

/-- Stage outcomes whose summary generation rejects with a quota error. -/
def exOutcomesSummaryFail : StageOutcomes :=
  ⟨.ok ⟨⟨some [⟨true, "High"⟩], none⟩, "j.json", some "P", 1⟩,
   .error "quota", .ok ⟨"ok text", "r.txt"⟩, .ok ⟨some "P", "vault/P", true, some 1⟩⟩

/-- Witness for C2: a run whose summary stage rejects persists nothing. -/
theorem narratives_all_or_nothing_witness :
    (uploadReport true exOutcomesSummaryFail).1 = none := by
  exact (narratives_all_or_nothing exOutcomesSummaryFail (Or.inl rfl)).1


/-- The truncated history never exceeds 20 entries. -/
lemma truncateHistory_length_le (l : List ChatMessage) :
    (truncateHistory l).length ≤ 20 := by
  unfold truncateHistory
  split
  · simp only [List.length_drop]
    omega
  · omega

/-- Truncation keeps a suffix of the history: oldest entries are dropped
first. -/
lemma truncateHistory_suffix (l : List ChatMessage) :
    truncateHistory l <:+ l := by
  unfold truncateHistory
  split
  · exact List.drop_suffix _ _
  · exact List.suffix_refl _

/-- Truncation preserves evenness of the history length. -/
lemma truncateHistory_even (l : List ChatMessage) (h : Even l.length) :
    Even (truncateHistory l).length := by
  unfold truncateHistory
  split
  · next hgt =>
      have h20 : l.length - (l.length - 20) = 20 := by omega
      simp only [List.length_drop, h20]
      exact ⟨10, rfl⟩
  · exact h


/-- C3 (amended). After each completed turn the stored history has at most
20 entries and is a suffix of the pre-turn history extended by the
user/assistant pair (oldest entries dropped first); when the pre-turn
history length is even — as for sessions created without seeding — the
post-turn length stays even. (Evenness does not hold for every session:
see the seeding counterexample.) -/
theorem history_bounded_after_turn (history : List ChatMessage)
    (tests : List TestEntry) (message botResponse : String) (now : Nat)
    (hmsg : jsTrim message ≠ "") (htests : tests ≠ []) :
    (sendMessage history tests message (.ok botResponse) now).persisted.length ≤ 20 ∧
    (sendMessage history tests message (.ok botResponse) now).persisted <:+
      (history ++ [⟨.user, jsTrim message, now⟩, ⟨.assistant, botResponse, now⟩]) ∧
    (Even history.length →
      Even (sendMessage history tests message (.ok botResponse) now).persisted.length) := by
  have hne : ¬ (tests.isEmpty = true) := by
    simpa [List.isEmpty_iff] using htests
  have hred : sendMessage history tests message (.ok botResponse) now =
      ⟨truncateHistory
        (history ++ [⟨.user, jsTrim message, now⟩, ⟨.assistant, botResponse, now⟩]),
       .ok botResponse⟩ := by
    unfold sendMessage
    rw [if_neg hmsg, if_neg hne]
    simp
  rw [hred]
  refine ⟨truncateHistory_length_le _, truncateHistory_suffix _, ?_⟩
  intro he
  apply truncateHistory_even
  simp only [List.length_append, List.length_cons, List.length_singleton]
  exact he.add ⟨1, rfl⟩

/-- A Report whose summary is non-empty but whose recommendations
normalise to nothing: `_buildInitialMessages` seeds exactly one assistant
message from it. -/
def exSeedReport : Report :=
  ⟨some "P", "Blood Test", ⟨some [⟨true, "High"⟩], none⟩, "S", " ", "High"⟩

/-- Counterexample to C3 as stated: a session seeded from `exSeedReport`
holds one assistant message, so with no turn in flight its history length
is odd, and it stays odd after a completed turn. -/
theorem history_evenness_counterexample :
    (startChat [] "u" "r" exSeedReport 0).2.chatHistory.length = 1 ∧
    ¬ Even (startChat [] "u" "r" exSeedReport 0).2.chatHistory.length ∧
    (sendMessage (startChat [] "u" "r" exSeedReport 0).2.chatHistory
        [⟨true, "High"⟩] "hi" (.ok "fine") 1).persisted.length = 3 ∧
    ¬ Even (sendMessage (startChat [] "u" "r" exSeedReport 0).2.chatHistory
        [⟨true, "High"⟩] "hi" (.ok "fine") 1).persisted.length := by
  have h1 : (startChat [] "u" "r" exSeedReport 0).2.chatHistory.length = 1 := by decide
  have h3 : (sendMessage (startChat [] "u" "r" exSeedReport 0).2.chatHistory
      [⟨true, "High"⟩] "hi" (.ok "fine") 1).persisted.length = 3 := by decide
  refine ⟨h1, ?_, h3, ?_⟩
  · rw [h1]
    rintro ⟨r, hr⟩
    omega
  · rw [h3]
    rintro ⟨r, hr⟩
    omega

/-- Witness for the amended C3 at a concrete turn on an empty history. -/
theorem history_bounded_after_turn_witness :
    jsTrim "hi" ≠ "" ∧ ([⟨true, "High"⟩] : List TestEntry) ≠ [] ∧
    (sendMessage [] [⟨true, "High"⟩] "hi" (.ok "ok") 0).persisted.length ≤ 20 ∧
    (sendMessage [] [⟨true, "High"⟩] "hi" (.ok "ok") 0).persisted <:+
      ([] ++ [⟨.user, jsTrim "hi", 0⟩, ⟨.assistant, "ok", 0⟩]) ∧
    (Even ([] : List ChatMessage).length →
      Even (sendMessage [] [⟨true, "High"⟩] "hi" (.ok "ok") 0).persisted.length) := by
  refine ⟨by decide, by decide, ?_, ?_, ?_⟩
  · exact (history_bounded_after_turn [] [⟨true, "High"⟩] "hi" "ok" 0
      (by decide) (by decide)).1
  · exact (history_bounded_after_turn [] [⟨true, "High"⟩] "hi" "ok" 0
      (by decide) (by decide)).2.1
  · exact (history_bounded_after_turn [] [⟨true, "High"⟩] "hi" "ok" 0
      (by decide) (by decide)).2.2


/-- Counterexample to C4 as stated: when the AI call rejects, the stored
history is unchanged — the user message from step 3 is NOT retained (the
in-memory push is never saved) — and the response is a 500 error, not a
fallback chat reply. -/
theorem ai_failure_counterexample :
    (sendMessage [] [⟨true, "High"⟩] "hello" (.error "AI down") 0).persisted = [] ∧
    (⟨Role.user, "hello", 0⟩ : ChatMessage) ∉
      (sendMessage [] [⟨true, "High"⟩] "hello" (.error "AI down") 0).persisted ∧
    (sendMessage [] [⟨true, "High"⟩] "hello" (.error "AI down") 0).response =
      .serverError "Failed to process message" := by
  decide

/-- C4 (amended). If the AI backend call fails after validation, the stored
session history is unchanged (state is not corrupted, but the user message
is not retained either, since `save` is only reached on success) and the
caller receives the 500 failure response rather than a chat reply. -/
theorem ai_failure_history_unchanged (history : List ChatMessage)
    (tests : List TestEntry) (message e : String) (now : Nat)
    (hmsg : jsTrim message ≠ "") (htests : tests ≠ []) :
    sendMessage history tests message (.error e) now =
      ⟨history, .serverError "Failed to process message"⟩ := by
  have hne : ¬ (tests.isEmpty = true) := by
    simpa [List.isEmpty_iff] using htests
  unfold sendMessage
  rw [if_neg hmsg, if_neg hne]

/-- Witness for the amended C4 at a concrete failing turn. -/
theorem ai_failure_history_unchanged_witness :
    jsTrim "what now" ≠ "" ∧ ([⟨false, "Low"⟩] : List TestEntry) ≠ [] ∧
    sendMessage [⟨.user, "hi", 0⟩, ⟨.assistant, "hello", 1⟩] [⟨false, "Low"⟩]
        "what now" (.error "boom") 2 =
      ⟨[⟨.user, "hi", 0⟩, ⟨.assistant, "hello", 1⟩],
       .serverError "Failed to process message"⟩ := by
  exact ⟨by decide, by decide,
    ai_failure_history_unchanged [⟨.user, "hi", 0⟩, ⟨.assistant, "hello", 1⟩]
      [⟨false, "Low"⟩] "what now" "boom" 2 (by decide) (by decide)⟩


/-- C5. A turn arriving while the most recent history entry (the previous
turn's reply) is younger than 2000 ms is answered 429 by the rate-limit
middleware and the stored history is unchanged; and a rate-limit check
that itself throws always falls through to `next()`, never blocking the
turn. -/
theorem rate_limit_cooldown (message : String) (hasChatId : Bool)
    (history : List ChatMessage) (tests : List TestEntry)
    (botResult : Except String String) (now : Nat) (last : ChatMessage)
    (hvalid : validateMessage message hasChatId = none)
    (hlast : history.getLast? = some last)
    (hrecent : (now : Int) - (last.timestamp : Int) < 2000) :
    messageRoute message hasChatId false true history tests botResult now =
      ⟨history, .tooMany "Please wait before sending another message"⟩ ∧
    (∀ (found : Bool) (h2 : List ChatMessage) (n2 : Nat),
      chatRateLimit true found h2 n2 = .proceed) := by
  constructor
  · unfold messageRoute
    rw [hvalid]
    have hrate : chatRateLimit false true history now = .rejected := by
      unfold chatRateLimit
      simp only [Bool.false_eq_true, if_false, not_true, ite_false]
      rw [hlast]
      simp [hrecent]
    rw [hrate]
  · intro found h2 n2
    rfl

/-- Witness for C5: a second turn 500 ms after the previous reply is
rejected with the cooldown message and the history is untouched. -/
theorem rate_limit_cooldown_witness :
    validateMessage "and this one?" true = none ∧
    ([⟨.user, "hi", 900⟩, ⟨.assistant, "hello", 1000⟩] : List ChatMessage).getLast? =
      some ⟨.assistant, "hello", 1000⟩ ∧
    ((1500 : Int) - (1000 : Int) < 2000) ∧
    messageRoute "and this one?" true false true
        [⟨.user, "hi", 900⟩, ⟨.assistant, "hello", 1000⟩] [⟨true, "High"⟩]
        (.ok "reply") 1500 =
      ⟨[⟨.user, "hi", 900⟩, ⟨.assistant, "hello", 1000⟩],
       .tooMany "Please wait before sending another message"⟩ ∧
    chatRateLimit true true [] 0 = .proceed := by
  refine ⟨by decide, by decide, by decide, ?_, ?_⟩
  · exact (rate_limit_cooldown "and this one?" true
      [⟨.user, "hi", 900⟩, ⟨.assistant, "hello", 1000⟩] [⟨true, "High"⟩]
      (.ok "reply") 1500 ⟨.assistant, "hello", 1000⟩
      (by decide) (by decide) (by decide)).1
  · exact (rate_limit_cooldown "and this one?" true
      [⟨.user, "hi", 900⟩, ⟨.assistant, "hello", 1000⟩] [⟨true, "High"⟩]
      (.ok "reply") 1500 ⟨.assistant, "hello", 1000⟩
      (by decide) (by decide) (by decide)).2 true [] 0


/-- `find?` over an append whose first part has no match. -/
lemma find?_append_of_none {α : Type} (p : α → Bool) (l1 l2 : List α)
    (h : l1.find? p = none) : (l1 ++ l2).find? p = l2.find? p := by
  induction l1 with
  | nil => rfl
  | cons a t ih =>
      cases hpa : p a with
      | true =>
          exfalso
          have : List.find? p (a :: t) = some a := by simp [List.find?, hpa]
          rw [h] at this
          exact Option.noConfusion this
      | false =>
          have hh : List.find? p t = none := by
            have := h
            simp [List.find?, hpa] at this
            exact List.find?_eq_none.mpr (by simpa using this)
          rw [List.cons_append]
          calc List.find? p (a :: (t ++ l2)) = List.find? p (t ++ l2) := by
                simp [List.find?, hpa]
            _ = List.find? p l2 := ih hh

/-- Every session-seeding message is an assistant turn. -/
lemma buildInitialMessages_roles (report : Report) (now : Nat) :
    ∀ m ∈ buildInitialMessages report now, m.role = Role.assistant := by
  intro m hm
  unfold buildInitialMessages at hm
  by_cases h1 : report.summary = ""
  · by_cases h2 : normalizeRecommendations report.recommendations = []
    · simp [h1, h2] at hm
    · simp [h1, h2] at hm
      subst hm
      rfl
  · by_cases h2 : normalizeRecommendations report.recommendations = []
    · simp [h1, h2] at hm
      subst hm
      rfl
    · simp [h1, h2] at hm
      rcases hm with hm | hm <;> subst hm <;> rfl

/-- C6. Requesting a chat session twice for the same (owner, Report) pair
returns the session created by the first request with the store unchanged
(idempotent create); when a session already exists it is returned
unchanged; and a freshly created session is seeded exactly with the
introductory assistant turns `_buildInitialMessages` derives from the
Report's summary and recommendations. -/
theorem startChat_idempotent_seeded (store : List StoredSession)
    (uid rid : String) (report : Report) (now now2 : Nat)
    (hnew : findSession store uid rid = none) :
    (startChat (startChat store uid rid report now).1 uid rid report now2 =
      ((startChat store uid rid report now).1,
       (startChat store uid rid report now).2)) ∧
    (∀ s, findSession store uid rid = some s →
      startChat store uid rid report now = (store, s)) ∧
    (startChat store uid rid report now).2.chatHistory =
      buildInitialMessages report now ∧
    (∀ m ∈ (startChat store uid rid report now).2.chatHistory,
      m.role = Role.assistant) := by
  have hstep : startChat store uid rid report now =
      (store ++ [⟨uid, rid, buildInitialMessages report now⟩],
       ⟨uid, rid, buildInitialMessages report now⟩) := by
    unfold startChat
    rw [hnew]
  refine ⟨?_, ?_, ?_, ?_⟩
  · rw [hstep]
    unfold startChat
    have hfind : findSession
        (store ++ [⟨uid, rid, buildInitialMessages report now⟩]) uid rid =
        some ⟨uid, rid, buildInitialMessages report now⟩ := by
      unfold findSession at hnew ⊢
      rw [find?_append_of_none _ _ _ hnew]
      simp [List.find?_cons]
    rw [hfind]
  · intro s hs
    rw [hnew] at hs
    exact absurd hs (by simp)
  · rw [hstep]
  · rw [hstep]
    exact buildInitialMessages_roles report now

/-- Witness for C6 on an empty store and the seeding example report. -/
theorem startChat_idempotent_seeded_witness :
    findSession [] "u" "r" = none ∧
    (startChat (startChat [] "u" "r" exSeedReport 0).1 "u" "r" exSeedReport 5 =
      ((startChat [] "u" "r" exSeedReport 0).1,
       (startChat [] "u" "r" exSeedReport 0).2)) ∧
    (startChat [] "u" "r" exSeedReport 0).2.chatHistory =
      buildInitialMessages exSeedReport 0 := by
  refine ⟨by decide, ?_, ?_⟩
  · exact (startChat_idempotent_seeded [] "u" "r" exSeedReport 0 5 (by decide)).1
  · exact (startChat_idempotent_seeded [] "u" "r" exSeedReport 0 5 (by decide)).2.2.1


/-- Counterexample to C7 as stated: the owner names "" and " " differ only
by whitespace (identical lower-cased trimmed forms), yet they are filed in
two different buckets, and the empty owner name lands in the
"unlabeled patient" bucket, not the "unlabeled" sentinel. -/
theorem owner_grouping_counterexample :
    jsTrim (jsToLower "") = jsTrim (jsToLower " ") ∧
    groupKey (some "") ≠ groupKey (some " ") ∧
    groupKey (some "") = "unlabeled patient" ∧
    groupKey (some " ") = "unlabeled" ∧
    groupFilesByPatient [⟨some "", 0⟩, ⟨some " ", 1⟩] =
      [⟨"unlabeled patient", "Unlabeled Patient", [⟨some "", 0⟩]⟩,
       ⟨"unlabeled", " ", [⟨some " ", 1⟩]⟩] := by
  decide

/-- C7 (amended). Owner names whose lower-cased trimmed form is non-empty
are bucketed case-insensitively and whitespace-trimmed; a missing or empty
owner name falls back to the "unlabeled patient" bucket while a
whitespace-only name falls to the "unlabeled" bucket (two distinct
sentinels), and filing never fails; the spec's Jane Doe variants land in
one shared bucket. -/
theorem owner_grouping_normalized (n1 n2 : String)
    (h1 : jsTrim (jsToLower n1) ≠ "")
    (heq : jsTrim (jsToLower n1) = jsTrim (jsToLower n2)) :
    groupKey (some n1) = groupKey (some n2) ∧
    groupKey none = "unlabeled patient" ∧
    groupKey (some "") = "unlabeled patient" ∧
    (∀ sq : String, sq ≠ "" → jsTrim (jsToLower sq) = "" →
      groupKey (some sq) = "unlabeled") ∧
    (groupFilesByPatient
        [⟨some "Jane Doe", 0⟩, ⟨some "jane doe", 1⟩, ⟨some " Jane Doe ", 2⟩]).length = 1 := by
  have h2 : jsTrim (jsToLower n2) ≠ "" := heq ▸ h1
  have hn1 : n1 ≠ "" := by
    intro hcon
    subst hcon
    exact h1 (by decide)
  have hn2 : n2 ≠ "" := by
    intro hcon
    subst hcon
    exact h2 (by decide)
  refine ⟨?_, by decide, by decide, ?_, by decide⟩
  · simp only [groupKey, displayName]
    rw [if_neg hn1, if_neg hn2, heq]
  · intro sq hsq htrim
    simp only [groupKey, displayName]
    rw [if_neg hsq, htrim]
    simp

/-- Witness for the amended C7 on the spec's Jane Doe scenario. -/
theorem owner_grouping_normalized_witness :
    jsTrim (jsToLower "Jane Doe") ≠ "" ∧
    jsTrim (jsToLower "Jane Doe") = jsTrim (jsToLower " jane DOE ") ∧
    groupKey (some "Jane Doe") = groupKey (some " jane DOE ") := by
  exact ⟨by decide, by decide,
    (owner_grouping_normalized "Jane Doe" " jane DOE " (by decide) (by decide)).1⟩


/-- C8. In every run trace (for either completion order of the two
concurrent narrative calls) extraction is the first event and strictly
precedes each narrative event; the vault (filing) event occurs only after
both narrative generations, and only when both succeeded; when extraction
fails the trace stops at extraction — no narrative or filing stage runs —
and no Report is persisted. -/
theorem pipeline_stage_ordering (st : StageOutcomes) (summaryFirst : Bool) :
    (processTrace st summaryFirst).head? = some .extract ∧
    (StageEv.summary ∈ processTrace st summaryFirst →
      (processTrace st summaryFirst).indexOf StageEv.extract <
        (processTrace st summaryFirst).indexOf StageEv.summary) ∧
    (StageEv.recs ∈ processTrace st summaryFirst →
      (processTrace st summaryFirst).indexOf StageEv.extract <
        (processTrace st summaryFirst).indexOf StageEv.recs) ∧
    (StageEv.vault ∈ processTrace st summaryFirst →
      StageEv.summary ∈ processTrace st summaryFirst ∧
      StageEv.recs ∈ processTrace st summaryFirst ∧
      (processTrace st summaryFirst).indexOf StageEv.summary <
        (processTrace st summaryFirst).indexOf StageEv.vault ∧
      (processTrace st summaryFirst).indexOf StageEv.recs <
        (processTrace st summaryFirst).indexOf StageEv.vault ∧
      isErrorE st.summary = false ∧ isErrorE st.recommendations = false) ∧
    (isErrorE st.extraction = true →
      processTrace st summaryFirst = [StageEv.extract] ∧
      (uploadReport true st).1 = none) := by
  obtain ⟨ext, sum, rec, vau⟩ := st
  cases ext with
  | error e =>
      cases summaryFirst <;>
        simp [processTrace, isErrorE, uploadReport, processComplete,
          Except.instMonad, Except.bind]
  | ok a =>
      cases sum <;> cases rec <;> cases summaryFirst <;>
        simp_all [processTrace, isErrorE]


/-- Stage outcomes whose extraction stage rejects. -/
def exOutcomesExtractFail : StageOutcomes :=
  ⟨.error "bad pdf", .ok ⟨"s", "s.txt"⟩, .ok ⟨"r", "r.txt"⟩,
   .ok ⟨some "P", "vault/P", true, some 1⟩⟩

/-- Witness for C8: an extraction failure yields the one-event trace and
persists nothing. -/
theorem pipeline_stage_ordering_witness :
    isErrorE exOutcomesExtractFail.extraction = true ∧
    processTrace exOutcomesExtractFail true = [StageEv.extract] ∧
    (uploadReport true exOutcomesExtractFail).1 = none := by
  refine ⟨rfl, ?_⟩
  exact (pipeline_stage_ordering exOutcomesExtractFail true).2.2.2.2 rfl


/-- A file system holding one output file whose content is a single
space: a whitespace-only narrative. -/
def exFsys : String → Option String :=
  fun p => if p = "/tmp/out.txt" then some " " else none

/-- Counterexample to C9 as stated: both narrative agents return a
whitespace-only text as success (no emptiness check exists), and a run
built from those outcomes persists a Report whose summary and
recommendations are that whitespace-only text. -/
theorem empty_narrative_counterexample :
    generateSummary "OUTPUT_FILE:/tmp/out.txt\n" exFsys = .ok ⟨" ", "/tmp/out.txt"⟩ ∧
    generateRecommendations "OUTPUT_FILE:/tmp/out.txt\n" exFsys = .ok ⟨" ", "/tmp/out.txt"⟩ ∧
    jsTrim " " = "" ∧
    (uploadReport true ⟨.ok ⟨⟨some [⟨true, "High"⟩], none⟩, "j.json", some "P", 1⟩,
        generateSummary "OUTPUT_FILE:/tmp/out.txt\n" exFsys,
        generateRecommendations "OUTPUT_FILE:/tmp/out.txt\n" exFsys,
        .ok ⟨some "P", "vault/P", true, some 1⟩⟩).1.map Report.summary = some " " ∧
    (uploadReport true ⟨.ok ⟨⟨some [⟨true, "High"⟩], none⟩, "j.json", some "P", 1⟩,
        generateSummary "OUTPUT_FILE:/tmp/out.txt\n" exFsys,
        generateRecommendations "OUTPUT_FILE:/tmp/out.txt\n" exFsys,
        .ok ⟨some "P", "vault/P", true, some 1⟩⟩).1.map Report.recommendations = some " " := by
  refine ⟨by decide, by decide, by decide, ?_, ?_⟩ <;> rfl

/-- C9 (amended). The narrative agents fail exactly on an ERROR marker, a
missing OUTPUT_FILE marker, or a missing output file; when the file exists
its content is returned as success whatever it is — empty and
whitespace-only narratives included — so such text can reach a persisted
Report. -/
theorem narrative_failure_conditions (output : String)
    (fsys : String → Option String) :
    (jsIncludes output "ERROR:" = true →
      isErrorE (generateSummary output fsys) = true ∧
      isErrorE (generateRecommendations output fsys) = true) ∧
    (jsIncludes output "ERROR:" = false →
      jsIncludes output "OUTPUT_FILE:" = false →
      isErrorE (generateSummary output fsys) = true ∧
      isErrorE (generateRecommendations output fsys) = true) ∧
    (jsIncludes output "ERROR:" = false →
      jsIncludes output "OUTPUT_FILE:" = true →
      fsys ((jsSplit (jsTrim ((jsSplit output "OUTPUT_FILE:").getD 1 "")) "\n").getD 0 "") = none →
      isErrorE (generateSummary output fsys) = true) ∧
    (∀ content : String,
      jsIncludes output "ERROR:" = false →
      jsIncludes output "OUTPUT_FILE:" = true →
      fsys ((jsSplit (jsTrim ((jsSplit output "OUTPUT_FILE:").getD 1 "")) "\n").getD 0 "") = some content →
      generateSummary output fsys =
        .ok ⟨content, (jsSplit (jsTrim ((jsSplit output "OUTPUT_FILE:").getD 1 "")) "\n").getD 0 ""⟩) := by
  refine ⟨?_, ?_, ?_, ?_⟩
  · intro h
    constructor <;> simp [generateSummary, generateRecommendations, h, isErrorE]
  · intro h1 h2
    constructor <;>
      simp [generateSummary, generateRecommendations, h1, h2, isErrorE]
  · intro h1 h2 hf
    simp only [List.getD_eq_getElem?_getD] at hf
    simp [generateSummary, h1, h2, hf, isErrorE]
  · intro content h1 h2 hf
    simp only [List.getD_eq_getElem?_getD] at hf
    simp [generateSummary, h1, h2, hf]

/-- Witness for the amended C9: an ERROR-marked output fails, and a
present whitespace-only file is returned as success. -/
theorem narrative_failure_conditions_witness :
    jsIncludes "ERROR:oops" "ERROR:" = true ∧
    isErrorE (generateSummary "ERROR:oops" exFsys) = true ∧
    jsIncludes "OUTPUT_FILE:/tmp/out.txt\n" "ERROR:" = false ∧
    jsIncludes "OUTPUT_FILE:/tmp/out.txt\n" "OUTPUT_FILE:" = true ∧
    generateSummary "OUTPUT_FILE:/tmp/out.txt\n" exFsys =
      .ok ⟨" ", "/tmp/out.txt"⟩ := by
  refine ⟨by decide, ?_, by decide, by decide, ?_⟩
  · exact ((narrative_failure_conditions "ERROR:oops" exFsys).1 (by decide)).1
  · exact (narrative_failure_conditions "OUTPUT_FILE:/tmp/out.txt\n" exFsys).2.2.2 " "
      (by decide) (by decide) (by decide)


/-- C10. A message longer than 1000 characters is rejected by the
validation middleware with a 400 validation error: the stored history is
untouched and the route's result does not depend on the AI backend at all
(no AI call is made). -/
theorem long_message_rejected (message : String)
    (hasChatId checkThrows sessionFound : Bool)
    (history : List ChatMessage) (tests : List TestEntry)
    (bot bot2 : Except String String) (now : Nat)
    (hlen : message.length > 1000) :
    (messageRoute message hasChatId checkThrows sessionFound history tests
      bot now).persisted = history ∧
    (messageRoute message hasChatId checkThrows sessionFound history tests
      bot now).response.isBadRequest = true ∧
    messageRoute message hasChatId checkThrows sessionFound history tests bot now =
      messageRoute message hasChatId checkThrows sessionFound history tests bot2 now := by
  have hne : message ≠ "" := by
    intro hcon
    subst hcon
    simp [String.length] at hlen
  obtain ⟨err, herr, hbad⟩ : ∃ err, validateMessage message hasChatId = some err ∧
      err.isBadRequest = true := by
    unfold validateMessage
    rw [if_neg hne]
    by_cases htrim : jsTrim message = ""
    · refine ⟨.badRequest "Message cannot be empty", ?_, rfl⟩
      rw [if_pos htrim]
    · refine ⟨.badRequest "Message too long (max 1000 characters)", ?_, rfl⟩
      rw [if_neg htrim, if_pos hlen]
  unfold messageRoute
  rw [herr]
  exact ⟨rfl, hbad, rfl⟩

/-- Witness for C10 with a 1001-character message. -/
theorem long_message_rejected_witness :
    (String.mk (List.replicate 1001 'a')).length > 1000 ∧
    (messageRoute (String.mk (List.replicate 1001 'a')) true false true []
      [⟨true, "High"⟩] (.ok "reply") 0).persisted = ([] : List ChatMessage) ∧
    (messageRoute (String.mk (List.replicate 1001 'a')) true false true []
      [⟨true, "High"⟩] (.ok "reply") 0).response.isBadRequest = true ∧
    messageRoute (String.mk (List.replicate 1001 'a')) true false true []
        [⟨true, "High"⟩] (.ok "reply") 0 =
      messageRoute (String.mk (List.replicate 1001 'a')) true false true []
        [⟨true, "High"⟩] (.error "down") 0 := by
  have hlen : (String.mk (List.replicate 1001 'a')).length > 1000 := by
    have hq : (String.mk (List.replicate 1001 'a')).length =
        (List.replicate 1001 'a').length := rfl
    rw [hq, List.length_replicate]
    omega
  refine ⟨hlen, ?_, ?_, ?_⟩
  · exact (long_message_rejected (String.mk (List.replicate 1001 'a')) true false true
      [] [⟨true, "High"⟩] (.ok "reply") (.error "down") 0 hlen).1
  · exact (long_message_rejected (String.mk (List.replicate 1001 'a')) true false true
      [] [⟨true, "High"⟩] (.ok "reply") (.error "down") 0 hlen).2.1
  · exact (long_message_rejected (String.mk (List.replicate 1001 'a')) true false true
      [] [⟨true, "High"⟩] (.ok "reply") (.error "down") 0 hlen).2.2

end MedLab
